import Mathlib

/-! # The subsystem descriptor protocol of `ffi/c/base.h`

A shallow embedding of the C header `src/ffi/c/base.h`:

* the record `SubsystemDescription` (lines 9-14) and the callback type
  `init_subsystem` (line 7);
* the two declarations produced by `KHZEB_SUBSYSTEM(n, b)` (lines 16-18): the
  static constant object `subsys` and the function `get_subsystem`.

Conventions of the embedding.

* A `const char *` is `CString`: the null pointer (`none`) or a pointer to
  static, immutable text (`some s`); the pointer is identified with the text it
  designates.
* A function pointer is the null pointer or a code address.  The record cannot
  hold the Lean function itself (its own type occurs in the argument of the
  callback), exactly as the C header needs the forward declaration of line 5.
* C code that reads or writes static storage is a function on an explicit
  state: a `Module` is the static storage of one translation unit that used
  `KHZEB_SUBSYSTEM`.
* `KHZEB_SUBSYSTEM` takes the values of its two arguments;
  `KHZEB_SUBSYSTEM_translate` takes the arguments as they are written at the
  point of use and applies the rule that C has for the initializer of an
  object of static storage duration.
* An `int` is an integer of 32 bits, `CInt`.
* What C leaves undefined has no result (`none`).
-/

namespace Khzeb

/-! ## Data model -/

/-- The C type `const char *`: null, or a pointer to static text. -/
abbrev CString := Option String

/-- The address of a function in the code of a module. -/
structure CodeAddr where
  addr : Nat
  deriving DecidableEq, Repr

/-- Line 7, `typedef int (*init_subsystem)(struct SubsystemDescription *)`:
a value of the type is a function pointer, null or the address of a callback. -/
abbrev init_subsystem := Option CodeAddr

/-- Lines 9-14, `struct SubsystemDescription`, the four members in the order of
the declaration. -/
structure SubsystemDescription where
  name : CString
  brief : CString
  author : CString
  init : init_subsystem
  deriving DecidableEq, Repr

/-- The objects with static storage that `KHZEB_SUBSYSTEM` defines in a
translation unit: only `subsys` (line 17). -/
inductive Addr where
  | subsys
  deriving DecidableEq, Repr

/-- The C type `const SubsystemDescription *`: null, or the address of an
object. -/
abbrev DescPtr := Option Addr

/-- The static storage of a module after `KHZEB_SUBSYSTEM`: the contents of the
object `subsys`. -/
structure Module where
  subsys : SubsystemDescription
  deriving DecidableEq, Repr

/-- Reading `*p` in the module: undefined (`none`) for the null pointer, the
contents of `subsys` for `&subsys`. -/
def Module.load (m : Module) : DescPtr → Option SubsystemDescription
  | none => none
  | some Addr.subsys => some m.subsys

/-! ## `KHZEB_SUBSYSTEM` -/

/-- Line 17, `static const SubsystemDescription subsys = {.name = n, .brief = b};`
The members without a designator (`author`, `init`) are initialised as objects
of static storage duration are: to null pointers. -/
def KHZEB_SUBSYSTEM (n b : CString) : Module :=
  { subsys := { name := n, brief := b, author := none, init := none } }

/-- Line 18, `const SubsystemDescription *get_subsystem() { return &subsys; }`:
no parameter; the result is the address of `subsys`, the static storage is
passed through. -/
def get_subsystem (m : Module) : DescPtr × Module :=
  (some Addr.subsys, m)

/-- What one call of the accessor shows to its caller: the returned pointer and
what is read through it right after the call. -/
structure Observation where
  ptr : DescPtr
  read : Option SubsystemDescription
  deriving DecidableEq, Repr

/-- Calling `get_subsystem` `k` times in a row, threading the static storage
from each call to the next and recording what each call shows. -/
def call_get_subsystem : Nat → Module → List Observation × Module
  | 0, m => ([], m)
  | k + 1, m =>
    let r := get_subsystem m
    let rest := call_get_subsystem k r.2
    ({ ptr := r.1, read := r.2.load r.1 } :: rest.1, rest.2)

/-! ## `KHZEB_SUBSYSTEM`, from the arguments as written -/

/-- The C types that occur in the header. -/
inductive CType where
  | int
  | char
  | const (t : CType)
  | ptr (t : CType)
  | struct (tag : String)
  | fn (ret : CType) (param : CType)
  | named (n : String)
  deriving DecidableEq, Repr

/-- A member of a struct declaration: its type and its identifier. -/
structure Member where
  ty : CType
  ident : String
  deriving DecidableEq, Repr

/-- Line 7: the type that `init_subsystem` names,
`int (*)(struct SubsystemDescription *)`. -/
def init_subsystem_type : CType :=
  CType.ptr (CType.fn CType.int (CType.ptr (CType.struct "SubsystemDescription")))

/-- The typedef names of the header (lines 7 and 14). -/
def typedefs (n : String) : Option CType :=
  if n = "init_subsystem" then some init_subsystem_type
  else if n = "SubsystemDescription" then some (CType.struct "SubsystemDescription")
  else none

/-- Lines 10-13: the member declarations of `struct SubsystemDescription`, from
the first to the last. -/
def SubsystemDescription_members : List Member :=
  [ { ty := CType.ptr (CType.const CType.char), ident := "name" },
    { ty := CType.ptr (CType.const CType.char), ident := "brief" },
    { ty := CType.ptr (CType.const CType.char), ident := "author" },
    { ty := CType.named "init_subsystem", ident := "init" } ]

/-- The kinds of member the protocol distinguishes. -/
inductive Kind where
  | text
  | fnptr
  | other
  deriving DecidableEq, Repr

/-- A type with its typedef name, if it is one, replaced by what it names. -/
def CType.resolve : CType → CType
  | CType.named n => (typedefs n).getD (CType.named n)
  | t => t

/-- The kind of a type: `const char *` is text, a pointer to a function is a
function pointer. -/
def CType.kind (t : CType) : Kind :=
  match t.resolve with
  | CType.ptr (CType.const CType.char) => Kind.text
  | CType.ptr (CType.fn _ _) => Kind.fnptr
  | _ => Kind.other

/-- A value stored in a member of the record. -/
inductive Value where
  | text (s : CString)
  | fnptr (f : init_subsystem)
  deriving DecidableEq, Repr

/-- The kind of a stored value. -/
def Value.kind : Value → Kind
  | Value.text _ => Kind.text
  | Value.fnptr _ => Kind.fnptr

/-- The members of a record value, each with its identifier, in the order in
which the structure `SubsystemDescription` holds them. -/
def SubsystemDescription.values (d : SubsystemDescription) : List (String × Value) :=
  [ ("name", Value.text d.name), ("brief", Value.text d.brief),
    ("author", Value.text d.author), ("init", Value.fnptr d.init) ]

/-! ## Properties -/

/-- Any number of calls of the accessor on any static storage: every call shows
the address of `subsys` and its contents, and the storage is what it was. -/
theorem call_get_subsystem_eq (k : Nat) (m : Module) :
    call_get_subsystem k m
      = (List.replicate k { ptr := some Addr.subsys, read := some m.subsys }, m) := by
  induction k with
  | zero => rfl
  | succ k ih =>
    simp only [call_get_subsystem, get_subsystem, ih, Module.load, List.replicate_succ]

/-! ## The claims -/

/-- C1: for every name `n` and brief `b`, the accessor of the module declared
with `KHZEB_SUBSYSTEM(n, b)` returns a pointer to a descriptor whose `name` is
`n` and whose `brief` is `b`, and each of any number `k` of repeated calls
shows that same pointer and that same descriptor. -/
theorem get_subsystem_name_brief (n b : CString) (k : Nat) :
    ∃ d : SubsystemDescription, d.name = n ∧ d.brief = b ∧
      (KHZEB_SUBSYSTEM n b).load (get_subsystem (KHZEB_SUBSYSTEM n b)).1 = some d ∧
      (call_get_subsystem k (KHZEB_SUBSYSTEM n b)).1
        = List.replicate k
            { ptr := (get_subsystem (KHZEB_SUBSYSTEM n b)).1, read := some d } :=
  ⟨(KHZEB_SUBSYSTEM n b).subsys, rfl, rfl, rfl, by rw [call_get_subsystem_eq]; rfl⟩

/-- C2: for every name `n` and brief `b`, the `init` member of the descriptor
defined by `KHZEB_SUBSYSTEM(n, b)` is the null pointer, in the static object
and as read through the pointer the accessor returns. -/
theorem KHZEB_SUBSYSTEM_init_null (n b : CString) :
    (KHZEB_SUBSYSTEM n b).subsys.init = none ∧
      ((KHZEB_SUBSYSTEM n b).load (get_subsystem (KHZEB_SUBSYSTEM n b)).1).map
          SubsystemDescription.init = some none :=
  ⟨rfl, rfl⟩

/-- C3: the accessor has no parameter besides the static storage it reads, and
for every name and brief every call of any run of `k` calls returns a pointer
that is not null and through which the one descriptor of the module is read. -/
theorem get_subsystem_not_null (n b : CString) (k : Nat) (o : Observation)
    (h : o ∈ (call_get_subsystem k (KHZEB_SUBSYSTEM n b)).1) :
    o.ptr ≠ none ∧ o.read = some (KHZEB_SUBSYSTEM n b).subsys ∧
      (KHZEB_SUBSYSTEM n b).load o.ptr = some (KHZEB_SUBSYSTEM n b).subsys := by
  rw [call_get_subsystem_eq] at h
  have ho := List.eq_of_mem_replicate h
  subst ho
  exact ⟨by simp, rfl, rfl⟩

/-- Instance of C3: what the second of two calls on the module "alpha" shows is
the address of `subsys`, which is not null. -/
theorem get_subsystem_not_null_witness :
    ({ ptr := some Addr.subsys,
       read := some (KHZEB_SUBSYSTEM (some "alpha") (some "demo subsystem")).subsys }
        : Observation)
        ∈ (call_get_subsystem 2 (KHZEB_SUBSYSTEM (some "alpha") (some "demo subsystem"))).1 ∧
      (some Addr.subsys : DescPtr) ≠ none :=
  ⟨by decide,
   (get_subsystem_not_null (some "alpha") (some "demo subsystem") 2
      { ptr := some Addr.subsys,
        read := some (KHZEB_SUBSYSTEM (some "alpha") (some "demo subsystem")).subsys }
      (by decide)).1⟩

/-- C5: for every static storage `m` and every number `k` of calls, the
accessor leaves the storage as it was, so all four members of the descriptor
are the same after the calls as before, and every call returns the address of
the one static object `subsys`, through which the descriptor already there is
read. -/
theorem get_subsystem_no_mutation (m : Module) (k : Nat) :
    (call_get_subsystem k m).2 = m ∧
      (call_get_subsystem k m).2.subsys.name = m.subsys.name ∧
      (call_get_subsystem k m).2.subsys.brief = m.subsys.brief ∧
      (call_get_subsystem k m).2.subsys.author = m.subsys.author ∧
      (call_get_subsystem k m).2.subsys.init = m.subsys.init ∧
      (call_get_subsystem k m).1.map Observation.ptr
        = List.replicate k (some Addr.subsys) ∧
      (call_get_subsystem k m).1.map Observation.read
        = List.replicate k (some m.subsys) := by
  rw [call_get_subsystem_eq]
  simp

/-- C6: the declaration of `struct SubsystemDescription` has exactly four
members, in the order `name`, `brief`, `author`, `init`; the first three are
text (`const char *`), the fourth is a function pointer, of the type
`init_subsystem`, a pointer to a function from a pointer to the record to
`int`; and every record value holds its members in that order with those
kinds. -/
theorem SubsystemDescription_shape :
    SubsystemDescription_members.length = 4 ∧
      SubsystemDescription_members.map Member.ident = ["name", "brief", "author", "init"] ∧
      SubsystemDescription_members.map (fun f => f.ty.kind)
        = [Kind.text, Kind.text, Kind.text, Kind.fnptr] ∧
      SubsystemDescription_members.map Member.ty
        = [CType.ptr (CType.const CType.char), CType.ptr (CType.const CType.char),
           CType.ptr (CType.const CType.char), CType.named "init_subsystem"] ∧
      (CType.named "init_subsystem").resolve
        = CType.ptr (CType.fn CType.int (CType.ptr (CType.struct "SubsystemDescription"))) ∧
      ∀ d : SubsystemDescription,
        d.values.map (fun v => (v.1, v.2.kind))
          = SubsystemDescription_members.map (fun f => (f.ident, f.ty.kind)) :=
  ⟨by decide, by decide, by decide, by decide, by decide, fun _ => rfl⟩

/-- C7: for every name `n` and briefs `b1`, `b2`, the two modules declared with
`KHZEB_SUBSYSTEM(n, b1)` and `KHZEB_SUBSYSTEM(n, b2)` both exist, and the
accessor of each returns a pointer to its own descriptor, with the name `n`
and its own brief; the equal names are not compared anywhere. -/
theorem KHZEB_SUBSYSTEM_equal_names (n b1 b2 : CString) :
    ∃ d1 d2 : SubsystemDescription,
      (KHZEB_SUBSYSTEM n b1).load (get_subsystem (KHZEB_SUBSYSTEM n b1)).1 = some d1 ∧
      (KHZEB_SUBSYSTEM n b2).load (get_subsystem (KHZEB_SUBSYSTEM n b2)).1 = some d2 ∧
      d1.name = n ∧ d2.name = n ∧ d1.brief = b1 ∧ d2.brief = b2 ∧
      (get_subsystem (KHZEB_SUBSYSTEM n b1)).2 = KHZEB_SUBSYSTEM n b1 ∧
      (get_subsystem (KHZEB_SUBSYSTEM n b2)).2 = KHZEB_SUBSYSTEM n b2 :=
  ⟨_, _, rfl, rfl, rfl, rfl, rfl, rfl, rfl, rfl⟩

/-- C10: for every name `n` and brief `b`, the `author` member of the
descriptor defined by `KHZEB_SUBSYSTEM(n, b)` is the null pointer, in the
static object and as read through the pointer the accessor returns; the two
arguments reach `name` and `brief` only. -/
theorem KHZEB_SUBSYSTEM_author_null (n b : CString) :
    (KHZEB_SUBSYSTEM n b).subsys.author = none ∧
      ((KHZEB_SUBSYSTEM n b).load (get_subsystem (KHZEB_SUBSYSTEM n b)).1).map
          SubsystemDescription.author = some none ∧
      ∀ n2 b2 : CString,
        (KHZEB_SUBSYSTEM n2 b2).subsys.author = (KHZEB_SUBSYSTEM n b).subsys.author :=
  ⟨rfl, rfl, fun _ _ => rfl⟩

end Khzeb
